import Mathlib

/-!
A shallow embedding of `index.js` of wicked.k8s-init: a one-shot provisioning
script that ensures a gateway application and subscription exist and mirrors
the resulting credentials into a cluster secret.

JavaScript strings that undergo character-level operations (`urlCombine`,
`getJson`) are modelled as `List Char`; identifiers and payload fields are
modelled as Lean `String`.  Asynchronous callback-passing code is modelled by
passing the outcome of each remote call in explicitly and returning an
`Except` together with the list of remote calls issued (the call trace).
-/

namespace WickedK8sInit

/-- Character-level model of a JavaScript string. -/
abbrev CStr := List Char

/-! ## urlCombine (index.js lines 177-181)

```js
function urlCombine(p1, p2) {
    const pp1 = p1.endsWith('/') ? p1.substring(0, p1.length - 1) : p1;
    const pp2 = p2.startsWith('/') ? p2.substring(1) : p2;
    return pp1 + '/' + pp2;
}
```
`endsWith('/')` holds exactly when the last character is `'/'`;
`substring(0, length - 1)` drops the last character; `startsWith('/')` holds
exactly when the first character is `'/'`; `substring(1)` drops the first
character. -/

def urlCombine (p1 p2 : CStr) : CStr :=
  let pp1 := if p1.getLast? = some '/' then p1.dropLast else p1
  let pp2 := if p2.head? = some '/' then p2.tail else p2
  pp1 ++ '/' :: pp2

/-- Spec-side formulation: strip exactly one leading slash, if present. -/
def stripOneLeadingSlash : CStr → CStr
  | '/' :: rest => rest
  | s => s

/-- Spec-side formulation: strip exactly one trailing slash, if present
(defined through `reverse` so it is syntactically independent of the
source translation). -/
def stripOneTrailingSlash (s : CStr) : CStr :=
  (stripOneLeadingSlash s.reverse).reverse

theorem stripOneTrailingSlash_eq (p : CStr) :
    stripOneTrailingSlash p = if p.getLast? = some '/' then p.dropLast else p := by
  induction p using List.reverseRecOn with
  | nil => simp [stripOneTrailingSlash, stripOneLeadingSlash]
  | append_singleton as a _ =>
    by_cases h : a = '/'
    · subst h
      simp [stripOneTrailingSlash, stripOneLeadingSlash]
    · simp only [stripOneTrailingSlash, List.reverse_append, List.reverse_cons,
        List.reverse_nil, List.nil_append, List.singleton_append]
      rw [List.getLast?_concat]
      simp [stripOneLeadingSlash, h, List.dropLast_concat]

theorem stripOneLeadingSlash_eq (p : CStr) :
    stripOneLeadingSlash p = if p.head? = some '/' then p.tail else p := by
  cases p with
  | nil => simp [stripOneLeadingSlash]
  | cons c rest =>
    by_cases h : c = '/'
    · subst h; simp [stripOneLeadingSlash]
    · simp [stripOneLeadingSlash, h]

/-! ## getJson (index.js lines 271-279)

```js
function getJson(ob) {
    if (ob instanceof String || typeof ob === "string") {
        ob = ob.trim();
        if (ob.startsWith('[') || (ob.startsWith('[')))
            return JSON.parse(ob);
        return { message: ob };
    }
    return ob;
}
```
Note the source tests `startsWith('[')` twice (the second disjunct repeats
the first instead of testing `'{'`). -/

/-- A JavaScript value as it can appear as an HTTP response body. -/
inductive JSVal : Type where
  | str (s : CStr)
  | arr (elems : List JSVal)
  | obj (fields : List (CStr × JSVal))
  | null

/-- Whitespace characters removed by JavaScript `String.prototype.trim`
(the common subset relevant to HTTP bodies). -/
def jsWhitespace (c : Char) : Bool :=
  c == ' ' || c == '\t' || c == '\n' || c == '\r'

/-- JavaScript `String.prototype.trim`: drop whitespace from both ends. -/
def jsTrim (s : CStr) : CStr :=
  ((s.dropWhile jsWhitespace).reverse.dropWhile jsWhitespace).reverse

/-- `getJson`, parameterised by the `JSON.parse` function (whose output on
well-formed JSON text is irrelevant to every claim). -/
def getJson (parse : CStr → JSVal) (ob : JSVal) : JSVal :=
  match ob with
  | .str s =>
    let t := jsTrim s
    -- source: `ob.startsWith('[') || (ob.startsWith('['))`
    if t.head? == some '[' || t.head? == some '[' then parse t
    else .obj [("message".toList, .str t)]
  | other => other

/-- Spec-side formulation of the coercion described by the claim: parse only
when the trimmed string starts with `'['`; wrap any other string as
`{message: trimmed}`; return non-strings unchanged. -/
def getJsonCoercionSpec (parse : CStr → JSVal) (ob : JSVal) : JSVal :=
  match ob with
  | .str s =>
    if (jsTrim s).head? = some '[' then parse (jsTrim s)
    else .obj [("message".toList, .str (jsTrim s))]
  | other => other

/-! ## Gateway (wicked) side

Remote calls made through the wicked SDK are modelled by passing their
outcomes in as arguments; the writes a function issues are collected in a
trace list. -/

/-- A failure returned by an SDK call, carrying the HTTP status and body. -/
structure ApiError where
  statusCode : Nat
  body : String
deriving DecidableEq

/-- An application as the remote system returns it. -/
structure AppInfo where
  id : String
  clientType : String
  redirectUris : List String
deriving DecidableEq

/-- The body passed to `wicked.createApplication` (index.js lines 136-141). -/
structure CreateAppBody where
  id : String
  name : String
  clientType : String
  redirectUri : String
deriving DecidableEq

/-- The body of an application patch, as the claims describe it.  The source
never issues a patch; the constructor exists so that "a patch call" is
expressible in statements. -/
structure PatchAppBody where
  id : String
  clientType : String
  redirectUris : List String
deriving DecidableEq

/-- An application write call against the gateway. -/
inductive WickedWrite : Type where
  | createApplication (body : CreateAppBody)
  | patchApplication (body : PatchAppBody)
deriving DecidableEq

/-! ### getApplication (index.js lines 112-119)

```js
function getApplication(appId, callback) {
    wicked.getApplication(appId, function (err, appInfo) {
        if (err && err.statusCode === 404)
            return callback(null, null);
        return callback(null, appInfo);
    });
}
```
The SDK outcome is `Except ApiError (Option AppInfo)`: on an error the SDK
passes no `appInfo` (modelled as `none`); on success `appInfo` may still be
absent.  On a 404 error the function returns `callback(null, null)`; on any
other error it falls through to `callback(null, appInfo)` with `appInfo`
undefined — it never invokes the callback with an error. -/

def getApplication (lookup : Except ApiError (Option AppInfo)) :
    Except ApiError (Option AppInfo) :=
  match lookup with
  | .error e =>
    if e.statusCode = 404 then
      .ok none        -- `return callback(null, null)`
    else
      .ok none        -- `return callback(null, appInfo)` with appInfo undefined
  | .ok appInfo => .ok appInfo

/-! ### createAppIfNotPresent (index.js lines 121-149)

```js
function createAppIfNotPresent(appId, redirectUri, clientType, callback) {
    wicked.getApplication(appId, function (err, appInfo) {
        if (err && err.statusCode === 404) {
            appInfo = null;
        } else if (err) {
            return callback(err);
        }
        if (appInfo) {
            return callback(null);       // Application is present: nothing to do
        }
        wicked.createApplication({
            id: appId,
            name: appId + ' (auto generated)',
            clientType: clientType,
            redirectUri: redirectUri
        }, function (err, appInfo) {
            if (err) return callback(err);
            callback(null);
        });
    });
}
```
`lookup` is the outcome of `wicked.getApplication`, `createResult` the
outcome of `wicked.createApplication`.  The second component of the result is
the list of write calls issued. -/

def createAppIfNotPresent (appId redirectUri clientType : String)
    (lookup : Except ApiError (Option AppInfo))
    (createResult : Except ApiError Unit) :
    Except ApiError Unit × List WickedWrite :=
  let doCreate : Except ApiError Unit × List WickedWrite :=
    (createResult,
     [.createApplication
       { id := appId,
         name := appId ++ " (auto generated)",
         clientType := clientType,
         redirectUri := redirectUri }])
  match lookup with
  | .error e => if e.statusCode = 404 then doCreate else (.error e, [])
  | .ok (some _) => (.ok (), [])
  | .ok none => doCreate

/-! ### createSubscriptionIfNotPresent (index.js lines 151-175)

```js
function createSubscriptionIfNotPresent(appId, apiId, callback) {
    wicked.getSubscriptions(appId, function (err, subsList) {
        if (err) return callback(err);
        const subs = subsList.find(s => s.api === apiId);
        if (subs) {
            return callback(null, subs);   // Subscription is present
        }
        wicked.createSubscription(appId, {
            application: appId,
            api: apiId,
            plan: PLAN_ID
        }, function (err, newSubs) {
            if (err) return callback(err);
            return callback(null, newSubs);
        });
    });
}
```
-/

/-- A subscription as the remote system returns it.  Credential fields are
optional strings; JavaScript truthiness makes an absent or empty field falsy. -/
structure Subscription where
  application : String
  api : String
  plan : String
  clientId : Option String
  clientSecret : Option String
  apikey : Option String
deriving DecidableEq

/-- The body passed to `wicked.createSubscription` (index.js lines 162-166). -/
structure CreateSubBody where
  application : String
  api : String
  plan : String
deriving DecidableEq

/-- A subscription write call against the gateway.  The source never issues a
delete; the constructor exists so that "a delete call" is expressible in
statements. -/
inductive SubWrite : Type where
  | createSubscription (appId : String) (body : CreateSubBody)
  | deleteSubscription (appId : String) (apiId : String)
deriving DecidableEq

def createSubscriptionIfNotPresent (appId apiId planId : String)
    (subsList : Except ApiError (List Subscription))
    (createResult : Except ApiError Subscription) :
    Except ApiError Subscription × List SubWrite :=
  match subsList with
  | .error e => (.error e, [])
  | .ok list =>
    match list.find? (fun s => s.api == apiId) with
    | some subs => (.ok subs, [])
    | none =>
      (createResult,
       [.createSubscription appId { application := appId, api := apiId, plan := planId }])

/-! ## Cluster (kubernetes) side

### kubernetesAction (index.js lines 183-217)

```js
function kubernetesAction(endpoint, method, body, callback) {
    request(req, function (err, apiResult, apiBody) {
        if (err) return callback(err);
        if (method === 'GET' && apiResult.statusCode === 404) {
            return callback(null, null);
        }
        const jsonBody = getJson(apiBody);
        if (apiResult.statusCode >= 400) {
            const err = new Error(JSON.stringify(jsonBody));
            return callback(err);
        }
        return callback(null, jsonBody);
    });
}
```
-/

/-- An HTTP verb used against the cluster API. -/
inductive Method : Type where
  | GET
  | POST
  | DELETE
deriving DecidableEq

/-- The outcome of one `request` call: either a transport error (`err`
truthy) or a response with a status code and body. -/
inductive HttpOutcome : Type where
  | transportError
  | response (statusCode : Nat) (body : JSVal)

/-- A failure of a cluster call: the transport error passed through, or an
`Error` built from the response (source: `new Error(JSON.stringify(jsonBody))`;
the error is modelled as carrying `jsonBody` itself, serialisation aside). -/
inductive KubeErr : Type where
  | transport
  | api (body : JSVal)

/-- `kubernetesAction`, with the HTTP outcome passed in.  A successful result
carries `none` exactly for the `GET`-404 case (`callback(null, null)`). -/
def kubernetesAction (parse : CStr → JSVal) (method : Method) (outcome : HttpOutcome) :
    Except KubeErr (Option JSVal) :=
  match outcome with
  | .transportError => .error .transport
  | .response statusCode body =>
    if method = .GET ∧ statusCode = 404 then
      .ok none
    else
      let jsonBody := getJson parse body
      if 400 ≤ statusCode then .error (.api jsonBody)
      else .ok (some jsonBody)

/-! ### Secret upsert (index.js lines 231-269)

```js
function upsertKubernetesSecret(subscription, callback) {
    const secretUrl = 'namespaces/' + NAMESPACE + '/secrets';
    const secretGetUrl = urlCombine(secretUrl, SECRET_NAME);
    async.series([
        callback => deleteKubernetesSecretIfPresent(secretGetUrl, callback),
        callback => createKubernetesSecret(subscription, secretUrl, callback)
    ], callback);
}

function deleteKubernetesSecretIfPresent(getUrl, callback) {
    kubernetesGet(getUrl, function (err, data) {
        if (err) return callback(err);
        if (data) return kubernetesDelete(getUrl, callback);
        return callback(null);
    });
}

function createKubernetesSecret(subscription, secretUrl, callback) {
    let stringData = {};
    if (subscription.clientId && subscription.clientSecret) {
        stringData.client_id = subscription.clientId;
        stringData.client_secret = subscription.clientSecret;
    } else if (subscription.apikey) {
        stringData.api_key = subscription.apikey;
    } else {
        return callback(new Error('Subscription does not contain neither ...'));
    }
    kubernetesPost(secretUrl, {
        metadata: { name: SECRET_NAME },
        stringData: stringData
    }, callback);
}
```
-/

/-- JavaScript truthiness of an optional string field: absent or empty is
falsy. -/
def truthy : Option String → Bool
  | none => false
  | some s => !s.isEmpty

/-- JavaScript truthiness of a response-body value: `null` and the empty
string are falsy; objects and arrays are truthy. -/
def jsvTruthy : JSVal → Bool
  | .null => false
  | .str s => !s.isEmpty
  | .arr _ => true
  | .obj _ => true

/-- Truthiness of the `data` the GET callback received (`if (data)`):
`none` is the 404/absent case. -/
def foundSecret : Option JSVal → Bool
  | none => false
  | some v => jsvTruthy v

/-- A failure of the secret upsert: a cluster-call failure, or the
data-integrity error ("Subscription does not contain neither client_id and
client_secret nor apikey"). -/
inductive UpsertErr : Type where
  | kube (e : KubeErr)
  | dataIntegrity

/-- The `stringData` object of the posted secret: exactly one of the two
credential shapes. -/
inductive StringData : Type where
  | oauth (client_id client_secret : String)
  | apikey (api_key : String)
deriving DecidableEq

/-- The body posted for the new secret:
`{metadata: {name: SECRET_NAME}, stringData: ...}`. -/
structure SecretBody where
  name : String
  stringData : StringData
deriving DecidableEq

/-- A call issued against the cluster-secret API. -/
inductive K8sCall : Type where
  | get (endpoint : CStr)
  | delete (endpoint : CStr)
  | post (endpoint : CStr) (body : SecretBody)
deriving DecidableEq

/-- The outcomes the environment holds ready for the (at most) three cluster
calls an upsert run can make. -/
structure K8sEnv where
  getOutcome : HttpOutcome
  deleteOutcome : HttpOutcome
  postOutcome : HttpOutcome

/-- The `stringData` derived from a subscription's credential fields
(index.js lines 252-264), `none` when neither shape is present. -/
def derivedStringData (subscription : Subscription) : Option StringData :=
  if truthy subscription.clientId && truthy subscription.clientSecret then
    some (.oauth (subscription.clientId.getD "") (subscription.clientSecret.getD ""))
  else if truthy subscription.apikey then
    some (.apikey (subscription.apikey.getD ""))
  else
    none

/-- The upsert-level result of the POST of the new secret. -/
def postResult (parse : CStr → JSVal) (env : K8sEnv) : Except UpsertErr Unit :=
  match kubernetesAction parse .POST env.postOutcome with
  | .error e => .error (.kube e)
  | .ok _ => .ok ()

def createKubernetesSecret (parse : CStr → JSVal) (env : K8sEnv)
    (subscription : Subscription) (secretUrl : CStr) (secretName : String) :
    Except UpsertErr Unit × List K8sCall :=
  match derivedStringData subscription with
  | none => (.error .dataIntegrity, [])
  | some sd =>
    (postResult parse env, [.post secretUrl { name := secretName, stringData := sd }])

def deleteKubernetesSecretIfPresent (parse : CStr → JSVal) (env : K8sEnv)
    (getUrl : CStr) : Except KubeErr Unit × List K8sCall :=
  match kubernetesAction parse .GET env.getOutcome with
  | .error e => (.error e, [.get getUrl])
  | .ok data =>
    if foundSecret data then
      match kubernetesAction parse .DELETE env.deleteOutcome with
      | .error e => (.error e, [.get getUrl, .delete getUrl])
      | .ok _ => (.ok (), [.get getUrl, .delete getUrl])
    else
      (.ok (), [.get getUrl])

/-- `upsertKubernetesSecret`: `async.series` runs the delete-if-present step
and then the create step, stopping at the first error. -/
def upsertKubernetesSecret (parse : CStr → JSVal) (env : K8sEnv)
    (ns secretName : String) (subscription : Subscription) :
    Except UpsertErr Unit × List K8sCall :=
  let secretUrl : CStr := ("namespaces/" ++ ns ++ "/secrets").toList
  let secretGetUrl : CStr := urlCombine secretUrl secretName.toList
  match deleteKubernetesSecretIfPresent parse env secretGetUrl with
  | (.error e, calls) => (.error (.kube e), calls)
  | (.ok _, calls1) =>
    let r := createKubernetesSecret parse env subscription secretUrl secretName
    (r.1, calls1 ++ r.2)

/-! ## Theorems -/

/-- C8: for every pair of strings `(base, path)`, `urlCombine` strips exactly
one trailing slash from the base if present, exactly one leading slash from
the path if present, and concatenates the results with a single `'/'`
separator. -/
theorem urlCombine_strips_one_slash_each_side (p1 p2 : CStr) :
    urlCombine p1 p2 = stripOneTrailingSlash p1 ++ '/' :: stripOneLeadingSlash p2 := by
  rw [stripOneTrailingSlash_eq, stripOneLeadingSlash_eq]
  rfl

/-- C10: the JSON-coercion helper `getJson` parses a string body as JSON only
when the trimmed string starts with `'['` (the source tests that same
condition twice); any other string — including one starting with `'{'` — is
returned wrapped as `{message: <trimmed raw text>}`, and non-string bodies
are returned unchanged. -/
theorem getJson_parses_only_bracket_strings (parse : CStr → JSVal) (ob : JSVal) :
    getJson parse ob = getJsonCoercionSpec parse ob := by
  cases ob <;> simp [getJson, getJsonCoercionSpec]

/-- C1 counterexample: a remote application whose `clientType` (and redirect
URIs) diverge from the desired values triggers no patch call — the write
trace is empty, not a single patch as the claim states. -/
theorem createAppIfNotPresent_divergence_counterexample :
    (AppInfo.mk "app-id" "confidential" ["https://other.example.com/cb"]).clientType
        ≠ "public_spa" ∧
    createAppIfNotPresent "app-id" "https://app.example.com/cb" "public_spa"
      (.ok (some (AppInfo.mk "app-id" "confidential" ["https://other.example.com/cb"])))
      (.ok ()) = (.ok (), []) :=
  ⟨by decide, rfl⟩

/-- C1 (amended): for every application that exists remotely, application
reconciliation succeeds without issuing any write call — it performs no
comparison of redirect URIs or client type and never patches. -/
theorem createAppIfNotPresent_present_is_noop (appId redirectUri clientType : String)
    (app : AppInfo) (createResult : Except ApiError Unit) :
    createAppIfNotPresent appId redirectUri clientType (.ok (some app)) createResult
      = (.ok (), []) :=
  rfl

/-- C7: for every application absent remotely (lookup fails with status 404),
reconciliation issues exactly one create call whose body carries the given
id, the display name `"<id> (auto generated)"`, the desired client type and
the desired redirect URI. -/
theorem createAppIfNotPresent_absent_creates (appId redirectUri clientType : String)
    (e : ApiError) (createResult : Except ApiError Unit)
    (h : e.statusCode = 404) :
    createAppIfNotPresent appId redirectUri clientType (.error e) createResult =
      (createResult,
       [.createApplication
         { id := appId,
           name := appId ++ " (auto generated)",
           clientType := clientType,
           redirectUri := redirectUri }]) := by
  simp [createAppIfNotPresent, h]

/-- Witness for C7 at a concrete 404 lookup. -/
theorem createAppIfNotPresent_absent_creates_witness :
    (ApiError.mk 404 "Not found").statusCode = 404 ∧
    createAppIfNotPresent "app-id" "https://app.example.com/cb" "public_spa"
      (.error (ApiError.mk 404 "Not found")) (.ok ()) =
      (.ok (),
       [.createApplication
         { id := "app-id",
           name := "app-id" ++ " (auto generated)",
           clientType := "public_spa",
           redirectUri := "https://app.example.com/cb" }]) :=
  ⟨rfl,
   createAppIfNotPresent_absent_creates "app-id" "https://app.example.com/cb" "public_spa"
     (ApiError.mk 404 "Not found") (.ok ()) rfl⟩

/-- C3 (code slip): on a lookup failure whose status is not 404,
`getApplication` does not propagate the failure — it invokes the callback
with no error and an undefined application, indistinguishable from success. -/
theorem getApplication_swallows_non404_error :
    getApplication (.error (ApiError.mk 500 "Internal Server Error")) = .ok none :=
  rfl

/-- C2 counterexample: the subscription list holds a subscription whose `api`
matches but whose `plan` (`"basic"`) differs from the desired plan
(`"unlimited"`); reconciliation neither deletes it nor returns nothing — it
returns that subscription unchanged with an empty write trace. -/
theorem createSubscriptionIfNotPresent_plan_mismatch_counterexample :
    (Subscription.mk "app-id" "api-id" "basic" (some "cid") (some "csec") none).plan
        ≠ "unlimited" ∧
    createSubscriptionIfNotPresent "app-id" "api-id" "unlimited"
      (.ok [Subscription.mk "app-id" "api-id" "basic" (some "cid") (some "csec") none])
      (.error (ApiError.mk 500 "unused")) =
      (.ok (Subscription.mk "app-id" "api-id" "basic" (some "cid") (some "csec") none), []) :=
  ⟨by decide, rfl⟩

/-- C2 (amended): whenever the subscription list contains a subscription
whose `api` equals the requested apiId, reconciliation returns the first such
subscription unchanged and issues no write call — the plan is never compared,
no delete is issued, and the possibly divergent subscription is returned as
usable in the same pass. -/
theorem createSubscriptionIfNotPresent_found_returned_unchanged
    (appId apiId planId : String) (list : List Subscription)
    (createResult : Except ApiError Subscription) (s : Subscription)
    (h : list.find? (fun t => t.api == apiId) = some s) :
    createSubscriptionIfNotPresent appId apiId planId (.ok list) createResult
      = (.ok s, []) := by
  simp [createSubscriptionIfNotPresent, h]

/-- Witness for the amended C2 at a concrete list holding a plan-divergent
subscription. -/
theorem createSubscriptionIfNotPresent_found_returned_unchanged_witness :
    [Subscription.mk "app-id" "api-id" "basic" none none (some "abc123")].find?
        (fun t => t.api == "api-id")
      = some (Subscription.mk "app-id" "api-id" "basic" none none (some "abc123")) ∧
    createSubscriptionIfNotPresent "app-id" "api-id" "unlimited"
      (.ok [Subscription.mk "app-id" "api-id" "basic" none none (some "abc123")])
      (.error (ApiError.mk 500 "unused")) =
      (.ok (Subscription.mk "app-id" "api-id" "basic" none none (some "abc123")), []) :=
  ⟨rfl,
   createSubscriptionIfNotPresent_found_returned_unchanged "app-id" "api-id" "unlimited"
     [Subscription.mk "app-id" "api-id" "basic" none none (some "abc123")]
     (.error (ApiError.mk 500 "unused"))
     (Subscription.mk "app-id" "api-id" "basic" none none (some "abc123")) rfl⟩

/-- C4: for every subscription, the derived secret payload is exactly
`{client_id, client_secret}` when both OAuth fields are present, otherwise
exactly `{api_key}` when `apikey` is present, and when neither shape is
present the upsert step fails with the data-integrity error and issues no
POST at all. -/
theorem createKubernetesSecret_payload_shapes (parse : CStr → JSVal) (env : K8sEnv)
    (subscription : Subscription) (secretUrl : CStr) (secretName : String) :
    createKubernetesSecret parse env subscription secretUrl secretName =
      if truthy subscription.clientId && truthy subscription.clientSecret then
        (postResult parse env,
         [.post secretUrl
           { name := secretName,
             stringData := .oauth (subscription.clientId.getD "")
               (subscription.clientSecret.getD "") }])
      else if truthy subscription.apikey then
        (postResult parse env,
         [.post secretUrl
           { name := secretName,
             stringData := .apikey (subscription.apikey.getD "") }])
      else
        (.error .dataIntegrity, []) := by
  by_cases h1 : (truthy subscription.clientId && truthy subscription.clientSecret) = true
  · simp [createKubernetesSecret, derivedStringData, h1]
  · by_cases h2 : truthy subscription.apikey = true
    · simp [createKubernetesSecret, derivedStringData, h1, h2]
    · simp [createKubernetesSecret, derivedStringData, h1, h2]

/-- C6 counterexample: a GET answered with status 301 — not a 2xx — is not
converted into a failure: `kubernetesAction` returns it as a success. -/
theorem kubernetesAction_redirect_not_failure :
    (301 < 200 ∨ 299 < 301) ∧
    kubernetesAction (fun _ => JSVal.null) .GET (.response 301 .null)
      = .ok (some .null) :=
  ⟨Or.inr (by decide), rfl⟩

/-- The amended behaviour of `kubernetesAction`, stated from the spec's
words: a GET returning 404 yields a successful null (absent) result; any
other response with status at least 400 yields a failure carrying the parsed
response body; any other response (status below 400) yields the parsed body
as success; a transport error is passed through as a failure. -/
def kubernetesActionAmendedSpec (parse : CStr → JSVal) (method : Method)
    (outcome : HttpOutcome) : Except KubeErr (Option JSVal) :=
  match outcome with
  | .transportError => .error .transport
  | .response statusCode body =>
    if method = .GET ∧ statusCode = 404 then .ok none
    else if 400 ≤ statusCode then .error (.api (getJson parse body))
    else .ok (some (getJson parse body))

/-- C6 (amended): for every cluster-secret call, a GET returning 404 yields a
successful null result, a response with status ≥ 400 (other than GET-404)
yields a failure carrying the parsed response body, and any response below
400 is treated as success. -/
theorem kubernetesAction_status_handling (parse : CStr → JSVal) (method : Method)
    (outcome : HttpOutcome) :
    kubernetesAction parse method outcome
      = kubernetesActionAmendedSpec parse method outcome := by
  cases outcome <;> rfl

/-- C5: for every upsert run on a subscription with a valid credential shape,
given that the GET and (if reached) the DELETE succeed, the cluster-call
trace is exactly one GET, then exactly one DELETE if and only if the GET
found the secret present, then exactly one POST of the new secret — the
existing secret's contents are never inspected. -/
theorem upsertKubernetesSecret_call_sequence (parse : CStr → JSVal) (env : K8sEnv)
    (ns secretName : String) (subscription : Subscription) (sd : StringData)
    (r d : Option JSVal)
    (hshape : derivedStringData subscription = some sd)
    (hget : kubernetesAction parse .GET env.getOutcome = .ok r)
    (hdel : kubernetesAction parse .DELETE env.deleteOutcome = .ok d) :
    (upsertKubernetesSecret parse env ns secretName subscription).2 =
      [.get (urlCombine ("namespaces/" ++ ns ++ "/secrets").toList secretName.toList)]
      ++ (if foundSecret r then
            [.delete (urlCombine ("namespaces/" ++ ns ++ "/secrets").toList
              secretName.toList)]
          else [])
      ++ [.post ("namespaces/" ++ ns ++ "/secrets").toList
            { name := secretName, stringData := sd }] := by
  by_cases hf : foundSecret r = true
  · simp [upsertKubernetesSecret, deleteKubernetesSecretIfPresent, createKubernetesSecret,
      hget, hdel, hshape, hf]
  · simp [upsertKubernetesSecret, deleteKubernetesSecretIfPresent, createKubernetesSecret,
      hget, hshape, hf]

/-- Witness for C5: the secret pre-exists (the GET returns a truthy object),
the subscription carries an api key, and the trace is GET, DELETE, POST. -/
theorem upsertKubernetesSecret_call_sequence_witness :
    derivedStringData (Subscription.mk "app-id" "api-id" "unlimited" none none
        (some "abc123")) = some (.apikey "abc123") ∧
    kubernetesAction (fun _ => JSVal.null) .GET (.response 200 (.obj []))
      = .ok (some (.obj [])) ∧
    kubernetesAction (fun _ => JSVal.null) .DELETE (.response 200 .null)
      = .ok (some .null) ∧
    (upsertKubernetesSecret (fun _ => JSVal.null)
        (K8sEnv.mk (.response 200 (.obj [])) (.response 200 .null) (.response 201 .null))
        "default" "some-secret"
        (Subscription.mk "app-id" "api-id" "unlimited" none none (some "abc123"))).2 =
      [.get (urlCombine ("namespaces/" ++ "default" ++ "/secrets").toList
        "some-secret".toList)]
      ++ (if foundSecret (some (.obj [])) then
            [.delete (urlCombine ("namespaces/" ++ "default" ++ "/secrets").toList
              "some-secret".toList)]
          else [])
      ++ [.post ("namespaces/" ++ "default" ++ "/secrets").toList
            { name := "some-secret", stringData := .apikey "abc123" }] :=
  ⟨rfl, rfl, rfl,
   upsertKubernetesSecret_call_sequence (fun _ => JSVal.null)
     (K8sEnv.mk (.response 200 (.obj [])) (.response 200 .null) (.response 201 .null))
     "default" "some-secret"
     (Subscription.mk "app-id" "api-id" "unlimited" none none (some "abc123"))
     (.apikey "abc123") (some (.obj [])) (some .null) rfl rfl rfl⟩

/-- C9: when the subscription carries neither credential shape and the secret
pre-exists (truthy GET result, successful DELETE), the upsert run fails with
the data-integrity error only after issuing the GET and the DELETE — the
previously existing secret is already deleted and no POST recreates it. -/
theorem upsertKubernetesSecret_deletes_before_shape_check (parse : CStr → JSVal)
    (env : K8sEnv) (ns secretName : String) (subscription : Subscription)
    (r d : Option JSVal)
    (hshape : derivedStringData subscription = none)
    (hget : kubernetesAction parse .GET env.getOutcome = .ok r)
    (hfound : foundSecret r = true)
    (hdel : kubernetesAction parse .DELETE env.deleteOutcome = .ok d) :
    upsertKubernetesSecret parse env ns secretName subscription =
      (.error .dataIntegrity,
       [.get (urlCombine ("namespaces/" ++ ns ++ "/secrets").toList secretName.toList),
        .delete (urlCombine ("namespaces/" ++ ns ++ "/secrets").toList
          secretName.toList)]) := by
  simp [upsertKubernetesSecret, deleteKubernetesSecretIfPresent, createKubernetesSecret,
    hget, hdel, hshape, hfound]

/-- Witness for C9: a subscription with no credential fields, a pre-existing
secret; the run ends in the data-integrity error with the secret deleted. -/
theorem upsertKubernetesSecret_deletes_before_shape_check_witness :
    derivedStringData (Subscription.mk "app-id" "api-id" "unlimited" none none none)
      = none ∧
    kubernetesAction (fun _ => JSVal.null) .GET (.response 200 (.obj []))
      = .ok (some (.obj [])) ∧
    foundSecret (some (.obj [])) = true ∧
    kubernetesAction (fun _ => JSVal.null) .DELETE (.response 200 .null)
      = .ok (some .null) ∧
    upsertKubernetesSecret (fun _ => JSVal.null)
        (K8sEnv.mk (.response 200 (.obj [])) (.response 200 .null) (.response 201 .null))
        "default" "some-secret"
        (Subscription.mk "app-id" "api-id" "unlimited" none none none) =
      (.error .dataIntegrity,
       [.get (urlCombine ("namespaces/" ++ "default" ++ "/secrets").toList
          "some-secret".toList),
        .delete (urlCombine ("namespaces/" ++ "default" ++ "/secrets").toList
          "some-secret".toList)]) :=
  ⟨rfl, rfl, rfl, rfl,
   upsertKubernetesSecret_deletes_before_shape_check (fun _ => JSVal.null)
     (K8sEnv.mk (.response 200 (.obj [])) (.response 200 .null) (.response 201 .null))
     "default" "some-secret"
     (Subscription.mk "app-id" "api-id" "unlimited" none none none)
     (some (.obj [])) (some .null) rfl rfl rfl rfl⟩

end WickedK8sInit
